import Mathlib

/-
Shallow embedding of the country-flags-util library (src/utils.js and
src/index.js) and proofs about the claims of its specification.

JS strings are modelled as Lean strings (lists of characters = the
characters JS sees via split('') / charCodeAt on the BMP); JS numbers
that are used as widths are modelled as Nat; a JS function that may
throw is modelled as returning Except String.  The Unicode case
mappings of toUpperCase are modelled exactly on ASCII and on the sharp
s ß (whose full uppercase mapping is the two-character SS); other
non-ASCII case mappings are out of the model's scope.
-/

namespace CountryFlagsUtil

/-- A country object as the library produces and consumes it:
the fields name, code and flag. -/
structure Country where
  name : String
  code : String
  flag : String
deriving DecidableEq, Repr

/-- The JavaScript values the library's entry points can receive where the
source performs dynamic checks (typeof, Array.isArray, falsiness). -/
inductive JSValue where
  | vString (s : String)
  | vNumber (n : Int)
  | vBool (b : Bool)
  | vNull
  | vUndefined
  | vArray (xs : List Country)
deriving DecidableEq

/-- Model of Array.isArray. -/
def isArray : JSValue → Bool
  | .vArray _ => true
  | _ => false

/-- The guard shared by getFlagEmoji and getFlagImageUrl: the argument is a
string of exactly 2 characters.  The JS guard is
`!code || typeof code !== 'string' || code.length !== 2`; for a string the
falsiness test `!code` holds exactly for the empty string, which the length
test already rejects, so the guard reduces to this. -/
def isTwoCharString : JSValue → Bool
  | .vString s => s.length == 2
  | _ => false

/-- The Unicode full uppercase mapping of one character, as toUpperCase
applies it: a character can map to several characters.  Exact on ASCII and
on ß (which uppercases to SS per Unicode SpecialCasing); remaining
non-ASCII mappings are not modelled. -/
def jsUpperChar (c : Char) : List Char :=
  if c = 'ß' then ['S', 'S'] else [c.toUpper]

/-- Model of String.prototype.toUpperCase: each character is replaced by its
full uppercase mapping and the results are concatenated. -/
def jsToUpperCase (s : String) : String := String.mk (s.data.map jsUpperChar).flatten

/-- Model of String.prototype.toLowerCase, per character. -/
def jsToLowerCase (s : String) : String := String.mk (s.data.map Char.toLower)

/-- Model of String.fromCodePoint: each code point becomes one character. -/
def fromCodePoint (ps : List Nat) : String := String.mk (ps.map Char.ofNat)

/-- src/utils.js getFlagEmoji: converts a 2-letter ISO country code to an
emoji flag; returns the empty string when the argument is not a string of
exactly 2 characters. -/
def getFlagEmoji (code : JSValue) : String :=
  match code with
  | .vString s =>
      if s.length != 2 then ""
      else
        fromCodePoint ((jsToUpperCase s).data.map (fun ch => 127397 + ch.toNat))
  | _ => ""

/-- src/utils.js getFlagImageUrl: URL of the flag image on flagcdn.com;
returns the empty string when the argument is not a string of exactly 2
characters.  In JS the width parameter defaults to 40: a call without a
width is modelled by passing 40. -/
def getFlagImageUrl (code : JSValue) (width : Nat) : String :=
  match code with
  | .vString s =>
      if s.length != 2 then ""
      else "https://flagcdn.com/w" ++ toString width ++ "/" ++ jsToLowerCase s ++ ".png"
  | _ => ""

/-- The options object of getCountrySelectHTML / getCountrySelect: each field
may be absent (none); the source applies defaults by destructuring. -/
structure SelectOptions where
  id : Option String
  name : Option String
  className : Option String
  selectedCode : Option String
  useImageFlags : Option Bool
  flagWidth : Option Nat

/-- The empty options object, the default for an absent options argument. -/
def emptyOptions : SelectOptions := ⟨none, none, none, none, none, none⟩

/-- Default applied by `id = 'country-select'` in the destructuring. -/
def resolvedId (o : SelectOptions) : String := o.id.getD "country-select"

/-- Default applied by `name = 'country'` in the destructuring. -/
def resolvedName (o : SelectOptions) : String := o.name.getD "country"

/-- Default applied by `className = ''` in the destructuring. -/
def resolvedClassName (o : SelectOptions) : String := o.className.getD ""

/-- Default applied by `selectedCode = ''` in the destructuring. -/
def resolvedSelectedCode (o : SelectOptions) : String := o.selectedCode.getD ""

/-- Default applied by `useImageFlags = true` in the destructuring. -/
def resolvedUseImageFlags (o : SelectOptions) : Bool := o.useImageFlags.getD true

/-- Default applied by `flagWidth = 40` in the destructuring. -/
def resolvedFlagWidth (o : SelectOptions) : Nat := o.flagWidth.getD 40

/-- The `const selected = code === selectedCode ? ' selected' : ''` line of
the option renderer in src/utils.js. -/
def selectedAttr (selectedCode : String) (c : Country) : String :=
  if c.code == selectedCode then " selected" else ""

/-- The flagDisplay computation of the option renderer in src/utils.js:
an img tag pointing at flagcdn when useImageFlags, the emoji plus a space
otherwise. -/
def flagDisplay (useImageFlags : Bool) (flagWidth : Nat) (c : Country) : String :=
  if useImageFlags then
    "<img src=\"" ++ getFlagImageUrl (.vString c.code) flagWidth ++ "\" alt=\"" ++ c.code
      ++ "\" style=\"vertical-align: middle; margin-right: 5px; width: "
      ++ toString flagWidth ++ "px;\">"
  else
    c.flag ++ " "

/-- The body of `countries.map(({ code, name, flag }) => ...)` in
src/utils.js getCountrySelectHTML. -/
def renderOption (selectedCode : String) (useImageFlags : Bool) (flagWidth : Nat)
    (c : Country) : String :=
  "<option value=\"" ++ c.code ++ "\"" ++ selectedAttr selectedCode c ++ ">"
    ++ flagDisplay useImageFlags flagWidth c ++ c.name ++ "</option>"

/-- The list of option strings getCountrySelectHTML builds for a country
list, in order. -/
def renderedOptions (opts : SelectOptions) (cs : List Country) : List String :=
  cs.map (renderOption (resolvedSelectedCode opts) (resolvedUseImageFlags opts)
    (resolvedFlagWidth opts))

/-- src/utils.js getCountrySelectHTML: throws (here: Except.error) when the
countries argument is not an array; otherwise renders the select element.
In JS the options parameter defaults to the empty object: a call without
options is modelled by passing emptyOptions. -/
def getCountrySelectHTML (countries : JSValue) (options : SelectOptions) :
    Except String String :=
  match countries with
  | .vArray cs =>
      let optionsHTML := String.intercalate "\n  " (renderedOptions options cs)
      .ok ("<select id=\"" ++ resolvedId options ++ "\" name=\"" ++ resolvedName options
        ++ "\" class=\"" ++ resolvedClassName options ++ "\">\n  " ++ optionsHTML
        ++ "\n</select>")
  | _ => .error "Countries must be an array"

/-- Modelled from the spec: the data file src/countries.js is not among the
sources; the README shows the table begins with Afghanistan (AF) and
Åland Islands (AX).  Only the mapping shape matters for the claims; the
exact table contents do not. -/
def countriesData : List (String × String) :=
  [("Afghanistan", "AF"), ("Åland Islands", "AX")]

/-- src/index.js getAllCountries: maps the country table to objects with
name, code and the emoji flag computed from the code. -/
def getAllCountries : List Country :=
  countriesData.map (fun c => { name := c.1, code := c.2, flag := getFlagEmoji (.vString c.2) })

/-- src/index.js getCountrySelect: thin wrapper supplying getAllCountries()
as the country list. -/
def getCountrySelect (options : SelectOptions) : Except String String :=
  getCountrySelectHTML (.vArray getAllCountries) options

/-- Spec-side rendering of a single option where the selected attribute is
governed by an explicit boolean, to be compared with what the code does. -/
def optionWithSelected (sel : Bool) (useImageFlags : Bool) (flagWidth : Nat)
    (c : Country) : String :=
  "<option value=\"" ++ c.code ++ "\"" ++ (if sel then " selected" else "") ++ ">"
    ++ flagDisplay useImageFlags flagWidth c ++ c.name ++ "</option>"

/-- Whether an option string carries the selected attribute: the text
" selected>" occurs in it. -/
def hasSelectedAttr (s : String) : Bool := decide (" selected>".data <:+: s.data)

/-- C1: the claim asserts getFlagEmoji "US" equals fromCodePoint(127464, 127482);
the code returns fromCodePoint(127482, 127480) instead (127464 is the regional
indicator for the letter C, not U), so the claimed value is wrong. -/
theorem getFlagEmoji_US_cex :
    getFlagEmoji (.vString "US") ≠ fromCodePoint [127464, 127482] := by
  decide

/-- C1 (amended): getFlagEmoji "US" returns the flag glyph equal to
String.fromCodePoint(127482, 127480). -/
theorem getFlagEmoji_US :
    getFlagEmoji (.vString "US") = fromCodePoint [127482, 127480] := by
  decide

/-- C4: the claim asserts that every 2-character string yields exactly two
code points; at the 2-character string ßa the uppercase mapping of ß is the
two characters SS, so the code returns the three code points of the
regional indicators S, S and A, not a concatenation of two code points. -/
theorem getFlagEmoji_algorithm_cex :
    (¬ ∃ p1 p2 : Nat,
      getFlagEmoji (.vString (String.mk ['ß', 'a'])) = fromCodePoint [p1, p2]) ∧
    getFlagEmoji (.vString (String.mk ['ß', 'a'])) =
      fromCodePoint [127397 + 'S'.toNat, 127397 + 'S'.toNat, 127397 + 'A'.toNat] := by
  constructor
  · rintro ⟨p1, p2, h⟩
    have h3 : (getFlagEmoji (.vString (String.mk ['ß', 'a']))).length = 3 := rfl
    rw [h] at h3
    simp [fromCodePoint, String.length] at h3
  · rfl

/-- C4 (amended): on every 2-character string of ASCII characters the code
upper-cases the two characters, adds the fixed offset 127397 to each
uppercased character's code point, and returns the two resulting code
points concatenated into a single string; characters with multi-character
Unicode uppercase mappings (such as ß) can yield more than two code points. -/
theorem getFlagEmoji_algorithm (c1 c2 : Char)
    (h1 : c1.toNat < 128) (h2 : c2.toNat < 128) :
    getFlagEmoji (.vString (String.mk [c1, c2])) =
      fromCodePoint [127397 + c1.toUpper.toNat, 127397 + c2.toUpper.toNat] := by
  have hb1 : c1 ≠ 'ß' := by intro h; subst h; exact absurd h1 (by decide)
  have hb2 : c2 ≠ 'ß' := by intro h; subst h; exact absurd h2 (by decide)
  simp [getFlagEmoji, jsToUpperCase, jsUpperChar, hb1, hb2, String.length]

/-- C4 witness: at the concrete ASCII string us the result is the pair of
code points of the regional indicators U and S. -/
theorem getFlagEmoji_algorithm_witness :
    ('u'.toNat < 128 ∧ 's'.toNat < 128) ∧
    getFlagEmoji (.vString (String.mk ['u', 's'])) =
      fromCodePoint [127397 + 'u'.toUpper.toNat, 127397 + 's'.toUpper.toNat] :=
  ⟨⟨by decide, by decide⟩, getFlagEmoji_algorithm 'u' 's' (by decide) (by decide)⟩

/-- C5: on any input that is not a string of exactly 2 characters, both
getFlagEmoji and getFlagImageUrl return the empty string (both functions
are total, so neither ever throws). -/
theorem soft_failure_returns_empty (v : JSValue) (w : Nat)
    (h : isTwoCharString v = false) :
    getFlagEmoji v = "" ∧ getFlagImageUrl v w = "" := by
  cases v <;> simp_all [isTwoCharString, getFlagEmoji, getFlagImageUrl]

/-- C5 witness: at the concrete non-2-character string "XXX" and width 10,
both functions return the empty string. -/
theorem soft_failure_returns_empty_witness :
    isTwoCharString (.vString "XXX") = false ∧
      (getFlagEmoji (.vString "XXX") = "" ∧ getFlagImageUrl (.vString "XXX") 10 = "") :=
  ⟨by decide, soft_failure_returns_empty (.vString "XXX") 10 (by decide)⟩

/-- C6: on every 2-character string code and every width, getFlagImageUrl
returns exactly https://flagcdn.com/w{width}/{code-lowercased}.png, the
width interpolated as given and the code lower-cased. -/
theorem getFlagImageUrl_shape (s : String) (w : Nat)
    (h : isTwoCharString (.vString s) = true) :
    getFlagImageUrl (.vString s) w =
      "https://flagcdn.com/w" ++ toString w ++ "/" ++ jsToLowerCase s ++ ".png" := by
  simp_all [isTwoCharString, getFlagImageUrl]

/-- C6 witness: getFlagImageUrl "GB" 80 is https://flagcdn.com/w80/gb.png and
getFlagImageUrl "gb" with the default width is https://flagcdn.com/w40/gb.png. -/
theorem getFlagImageUrl_shape_witness :
    (isTwoCharString (.vString "GB") = true ∧
      getFlagImageUrl (.vString "GB") 80 = "https://flagcdn.com/w80/gb.png") ∧
    (isTwoCharString (.vString "gb") = true ∧
      getFlagImageUrl (.vString "gb") 40 = "https://flagcdn.com/w40/gb.png") :=
  ⟨⟨by decide, by rw [getFlagImageUrl_shape "GB" 80 (by decide)]; rfl⟩,
   ⟨by decide, by rw [getFlagImageUrl_shape "gb" 40 (by decide)]; rfl⟩⟩

/-- C8: on the empty country list with the empty options object the code
produces a select element with id country-select, name country, an empty
class attribute and no option children. -/
theorem getCountrySelectHTML_empty :
    getCountrySelectHTML (.vArray []) emptyOptions =
      Except.ok "<select id=\"country-select\" name=\"country\" class=\"\">\n  \n</select>" ∧
    ¬ ("<option".data <:+:
      "<select id=\"country-select\" name=\"country\" class=\"\">\n  \n</select>".data) := by
  exact ⟨rfl, by decide⟩

/-- C9: getCountrySelect is exactly getCountrySelectHTML applied to
getAllCountries and the same options, for every options object. -/
theorem getCountrySelect_wrapper (opts : SelectOptions) :
    getCountrySelect opts = getCountrySelectHTML (.vArray getAllCountries) opts := rfl

/-- C3: getCountrySelectHTML errors exactly when its countries argument is
not an array, and the only error it produces carries the message
"Countries must be an array"; on any array it returns a string. -/
theorem getCountrySelectHTML_error_iff (v : JSValue) (opts : SelectOptions) :
    ((∃ e, getCountrySelectHTML v opts = Except.error e) ↔ isArray v = false) ∧
    (getCountrySelectHTML v opts = Except.error "Countries must be an array" ∨
      ∃ s, getCountrySelectHTML v opts = Except.ok s) := by
  cases v <;> simp [getCountrySelectHTML, isArray]

/-- The option renderer of the source equals the spec-side renderer whose
selected flag is the decision of exact propositional string equality of the
country's code with the selected code. -/
theorem renderOption_eq_optionWithSelected (sel : String) (uif : Bool) (fw : Nat)
    (c : Country) :
    renderOption sel uif fw c = optionWithSelected (decide (c.code = sel)) uif fw c := by
  by_cases h : c.code = sel <;> simp [renderOption, optionWithSelected, selectedAttr, h]

/-- C7: the output of getCountrySelectHTML on an array never errors, and each
country's option carries the selected attribute exactly when its code equals
the resolved selectedCode under exact, case-sensitive string equality. -/
theorem selected_iff_exact_match (cs : List Country) (opts : SelectOptions) :
    getCountrySelectHTML (.vArray cs) opts =
      Except.ok ("<select id=\"" ++ resolvedId opts ++ "\" name=\"" ++ resolvedName opts
        ++ "\" class=\"" ++ resolvedClassName opts ++ "\">\n  "
        ++ String.intercalate "\n  " (cs.map (fun c =>
            optionWithSelected (decide (c.code = resolvedSelectedCode opts))
              (resolvedUseImageFlags opts) (resolvedFlagWidth opts) c))
        ++ "\n</select>") := by
  have hf : renderOption (resolvedSelectedCode opts) (resolvedUseImageFlags opts)
      (resolvedFlagWidth opts) = fun c =>
        optionWithSelected (decide (c.code = resolvedSelectedCode opts))
          (resolvedUseImageFlags opts) (resolvedFlagWidth opts) c :=
    funext fun c => renderOption_eq_optionWithSelected _ _ _ c
  simp [getCountrySelectHTML, renderedOptions, hf]

/-- C2: the claim says the class attribute is omitted when className is empty;
at the concrete input of an empty country list and the empty options object
(className therefore the default empty string) the emitted select element
does contain the text class followed by an empty quoted value, so the
attribute is not omitted. -/
theorem class_attr_omitted_cex :
    getCountrySelectHTML (.vArray []) emptyOptions =
      Except.ok "<select id=\"country-select\" name=\"country\" class=\"\">\n  \n</select>" ∧
    " class=\"\"".data <:+:
      "<select id=\"country-select\" name=\"country\" class=\"\">\n  \n</select>".data :=
  ⟨rfl, by decide⟩

/-- C2 (amended): when the resolved className is the empty string the class
attribute is still emitted, with an empty quoted value, in the select element
produced for any country list. -/
theorem class_attr_always_emitted (cs : List Country) (opts : SelectOptions)
    (h : resolvedClassName opts = "") :
    ∃ s, getCountrySelectHTML (.vArray cs) opts = Except.ok s ∧
      " class=\"\"".data <:+: s.data := by
  refine ⟨_, rfl, ?_⟩
  rw [h]
  refine ⟨("<select id=\"" ++ resolvedId opts ++ "\" name=\"" ++ resolvedName opts
      ++ "\"").data,
    (">\n  " ++ String.intercalate "\n  " (renderedOptions opts cs)
      ++ "\n</select>").data, ?_⟩
  have hC : ("\" class=\"" : String).data =
      ("\"" : String).data ++ (" class=\"" : String).data := rfl
  have hD : ("\">\n  " : String).data =
      ("\"" : String).data ++ (">\n  " : String).data := rfl
  have hP : (" class=\"\"" : String).data =
      (" class=\"" : String).data ++ ("\"" : String).data := rfl
  have hE : ("" : String).data = ([] : List Char) := rfl
  simp [String.data_append, hC, hD, hP, hE, List.append_assoc]

/-- C2 witness: for the empty country list and the empty options object the
resolved className is the default empty string and the emitted element
contains the empty class attribute. -/
theorem class_attr_always_emitted_witness :
    resolvedClassName emptyOptions = "" ∧
      ∃ s, getCountrySelectHTML (.vArray []) emptyOptions = Except.ok s ∧
        " class=\"\"".data <:+: s.data :=
  ⟨rfl, class_attr_always_emitted [] emptyOptions rfl⟩

/-- A rendered option whose country code equals the selected code carries the
selected attribute. -/
theorem hasSelectedAttr_renderOption (sel : String) (uif : Bool) (fw : Nat)
    (c : Country) (h : c.code = sel) :
    hasSelectedAttr (renderOption sel uif fw c) = true := by
  have hsel : selectedAttr sel c = " selected" := by simp [selectedAttr, h]
  unfold hasSelectedAttr renderOption
  rw [hsel, decide_eq_true_eq]
  refine ⟨("<option value=\"" ++ c.code ++ "\"").data,
    (flagDisplay uif fw c ++ c.name ++ "</option>").data, ?_⟩
  have hp : (" selected>" : String).data =
      (" selected" : String).data ++ (">" : String).data := rfl
  simp [String.data_append, hp, List.append_assoc]

/-- The i-th rendered option of a country list is the option rendered for the
i-th country. -/
theorem renderedOptions_getD (opts : SelectOptions) (cs : List Country) (i : Nat)
    (hi : i < cs.length) :
    (renderedOptions opts cs).getD i "" =
      renderOption (resolvedSelectedCode opts) (resolvedUseImageFlags opts)
        (resolvedFlagWidth opts) (cs.get ⟨i, hi⟩) := by
  simp [renderedOptions, List.getD_eq_getElem?_getD, List.getElem?_map,
    List.getElem?_eq_getElem hi]

/-- C10: when two distinct positions of the country list both carry the
selected code, the options rendered at both positions carry the selected
attribute in the getCountrySelectHTML output (the renderer does not stop at
the first match). -/
theorem duplicate_selected_codes (opts : SelectOptions) (cs : List Country)
    (i j : Nat) (hi : i < cs.length) (hj : j < cs.length) (_hij : i ≠ j)
    (h1 : (cs.get ⟨i, hi⟩).code = resolvedSelectedCode opts)
    (h2 : (cs.get ⟨j, hj⟩).code = resolvedSelectedCode opts) :
    hasSelectedAttr ((renderedOptions opts cs).getD i "") = true ∧
    hasSelectedAttr ((renderedOptions opts cs).getD j "") = true ∧
    getCountrySelectHTML (.vArray cs) opts =
      Except.ok ("<select id=\"" ++ resolvedId opts ++ "\" name=\"" ++ resolvedName opts
        ++ "\" class=\"" ++ resolvedClassName opts ++ "\">\n  "
        ++ String.intercalate "\n  " (renderedOptions opts cs) ++ "\n</select>") := by
  refine ⟨?_, ?_, rfl⟩
  · rw [renderedOptions_getD opts cs i hi]
    exact hasSelectedAttr_renderOption _ _ _ _ h1
  · rw [renderedOptions_getD opts cs j hj]
    exact hasSelectedAttr_renderOption _ _ _ _ h2

/-- Concrete options selecting the code US, for the duplicate-codes witness. -/
def dupOpts : SelectOptions := ⟨none, none, none, some "US", none, none⟩

/-- A country list in which two distinct entries carry the code US. -/
def dupCountries : List Country :=
  [⟨"United States", "US", "x"⟩, ⟨"United States again", "US", "y"⟩]

/-- C10 witness: on a concrete list with the code US at positions 0 and 1 and
selectedCode US, both rendered options carry the selected attribute. -/
theorem duplicate_selected_codes_witness :
    (((0 : Nat) < dupCountries.length ∧ (1 : Nat) < dupCountries.length ∧ (0 : Nat) ≠ 1) ∧
      (dupCountries.get ⟨0, by decide⟩).code = resolvedSelectedCode dupOpts ∧
      (dupCountries.get ⟨1, by decide⟩).code = resolvedSelectedCode dupOpts) ∧
    (hasSelectedAttr ((renderedOptions dupOpts dupCountries).getD 0 "") = true ∧
      hasSelectedAttr ((renderedOptions dupOpts dupCountries).getD 1 "") = true ∧
      getCountrySelectHTML (.vArray dupCountries) dupOpts =
        Except.ok ("<select id=\"" ++ resolvedId dupOpts ++ "\" name=\"" ++ resolvedName dupOpts
          ++ "\" class=\"" ++ resolvedClassName dupOpts ++ "\">\n  "
          ++ String.intercalate "\n  " (renderedOptions dupOpts dupCountries)
          ++ "\n</select>")) :=
  ⟨⟨⟨by decide, by decide, by decide⟩, rfl, rfl⟩,
    duplicate_selected_codes dupOpts dupCountries 0 1 (by decide) (by decide)
      (by decide) rfl rfl⟩

end CountryFlagsUtil
